import Mathlib

/-!
Verification of the `monitor` command of `perun/cli.py`.

The `monitor` click command is embedded as a pure function from a run
configuration (command-line inputs plus the environment facts the code
branches on) to the command outcome together with the ordered trace of
observable actions it performs.  Helper functions embed the Python string
and path primitives the command uses: `list.index`, `str.replace`,
`pathlib.Path.suffix`, `pathlib.Path.name` and POSIX path normalization.
-/

namespace Perun

/-- Python `list.index(x)`: index of the first occurrence of `x`, `none`
when absent (Python raises `ValueError` in that case). -/
def pyIndex (x : String) : List String → Option Nat
  | [] => none
  | a :: rest => if a = x then some 0 else (pyIndex x rest).map (· + 1)

/-- Python `str.replace(pat, "")` on character lists: remove every
(left-to-right, non-overlapping) occurrence of `pat`.  Each step consumes
at least one character, so a fuel of the list's length is enough. -/
def removeAllAux (pat : List Char) : Nat → List Char → List Char
  | _, [] => []
  | 0, l => l
  | fuel + 1, c :: rest =>
    if pat ≠ [] ∧ pat.isPrefixOf (c :: rest) then
      removeAllAux pat fuel (rest.drop (pat.length - 1))
    else
      c :: removeAllAux pat fuel rest

/-- Remove every occurrence of `pat`.  An empty pattern with an empty
replacement leaves the string unchanged, as in Python. -/
def removeAll (pat cs : List Char) : List Char :=
  removeAllAux pat cs.length cs

/-- Python `name.replace(pat, "")` on strings. -/
def pyReplaceRemove (name pat : String) : String :=
  String.mk (removeAll pat.toList name.toList)

/-- Split a character list at every `'/'`, like `str.split("/")`. -/
def splitSlash : List Char → List (List Char)
  | [] => [[]]
  | c :: rest =>
    if c = '/' then [] :: splitSlash rest
    else
      match splitSlash rest with
      | [] => [[c]]
      | s :: tl => (c :: s) :: tl

/-- The non-root components of a POSIX path: `pathlib` drops empty
components and `"."` components. -/
def pathParts (p : String) : List String :=
  ((splitSlash p.toList).map String.mk).filter (fun x => x != "" && x != ".")

/-- The root of a POSIX path as `pathlib` keeps it: exactly two leading
slashes stay `"//"`, three or more collapse to `"/"`. -/
def posixRoot (p : String) : String :=
  match p.toList with
  | '/' :: '/' :: '/' :: _ => "/"
  | '/' :: '/' :: _ => "//"
  | '/' :: _ => "/"
  | _ => ""

/-- The path separator string. -/
def slashStr : String := "/"

/-- Embeds `str(pathlib.Path(p))`: the normalized POSIX path string. -/
def posixStr (p : String) : String :=
  let parts := pathParts p
  if parts.isEmpty then (if posixRoot p = "" then "." else posixRoot p)
  else posixRoot p ++ String.intercalate slashStr parts

/-- Embeds `pathlib.Path(p).name`: the final path component, `""` when there is
none. -/
def pyName (p : String) : String :=
  match (pathParts p).getLast? with
  | some s => s
  | none => ""

/-- Index of the last `'.'` in a character list, as `str.rfind('.')`. -/
def lastDotIdx (cs : List Char) : Option Nat :=
  ((List.range cs.length).filter (fun i => cs.getD i ' ' == '.')).getLast?

/-- The `pathlib` suffix of a file name: `name[i:]` for the last dot index
`i` when `0 < i < len(name) - 1`, else `""`. -/
def pySuffix (name : String) : String :=
  let cs := name.toList
  match lastDotIdx cs with
  | none => ""
  | some i => if 0 < i ∧ i + 1 < cs.length then String.mk (cs.drop i) else ""

/-- Embeds `scriptName = filePath.name.replace(filePath.suffix, "")` for a script
path: every occurrence of the suffix string is removed from the name. -/
def scriptNameOf (script : String) : String :=
  pyReplaceRemove (pyName script) (pySuffix (pyName script))

/-- Embeds `str(base / child)` for a normalized base path and a plain file name. -/
def pathJoin (base child : String) : String :=
  if base = "." then child
  else if base = "/" ∨ base = "//" then base ++ child
  else base ++ "/" ++ child

/-- Embeds `str(outPath / f"{scriptName}.hdf5")`: where the experiment record of
a monitored script is written. -/
def resultPathOf (script outdir : String) : String :=
  pathJoin (posixStr outdir) (scriptNameOf script ++ ".hdf5")

/-- The finalized local buffer a sampler worker puts on the hand-off
queue (its contents are opaque to the orchestrator). -/
structure LocalData where
  payload : Nat
  deriving DecidableEq

/-- Observable actions of one process running the `monitor` command, in
program order. -/
inductive Event where
  /-- Models `sys.argv = sys.argv[argIndex:]` -/
  | setArgv (argv : List String)
  /-- Models `perun.getDeviceConfiguration(comm, perun.backends)` -/
  | resolveDevices
  /-- Models `backend.close()` for the i-th backend of the registry -/
  | closeBackend (i : Nat)
  /-- Models the `Process(...).start()` call handing the worker the queue, both signals, the device list and the frequency -/
  | spawnWorker (devices : List String) (freq : ℚ)
  /-- Models `start_event.wait()` -/
  | waitStart
  /-- Models `comm.barrier()` -/
  | barrier
  /-- Models `exec(scriptFile.read(), ...)` -/
  | runWorkload
  /-- Models `stop_event.set()` -/
  | setStop
  /-- Models `perunSP.join()` followed by `perunSP.close()` -/
  | joinWorker
  /-- Models `lStrg = queue.get()` -/
  | getQueue (data : LocalData)
  /-- Models `outPath.mkdir(parents=True)` -/
  | mkOutdir (path : String)
  /-- Models `expStrg = perun.ExperimentStorage(resultPath, comm)` -/
  | openStorage (path : String)
  /-- Models `expStrg.addExperimentRun(lStrg.toDict())` or `expStrg.addExperimentRun(None)` -/
  | addRun (data : Option LocalData)
  /-- Models `expStrg.saveDeviceData(expId, lStrg)` -/
  | saveDeviceData (data : LocalData)
  /-- Models `perun.postprocessing(expStorage=expStrg)` -/
  | postprocess
  /-- Models `print(perun.report(...))` on the chosen format -/
  | report
  /-- Models `expStrg.close()` -/
  | closeStorage
  deriving DecidableEq

/-- Whether an event is a run registration (`addExperimentRun`), with any
payload. -/
def isAddRun : Event → Bool
  | .addRun _ => true
  | _ => false

/-- How the command terminates: `ok` is a normal return (process exit
code 0), `valueError` is the uncaught `ValueError` from
`sys.argv.index` (a non-zero exit). -/
inductive Outcome where
  | ok
  | valueError
  deriving DecidableEq

/-- One process's run configuration: the command-line inputs of `monitor`
plus the environment facts the code branches on. -/
structure Config where
  /-- The `sys.argv` list on entry -/
  argv : List String
  /-- the SCRIPT argument -/
  script : String
  /-- the `--outdir` option (default `"./"`) -/
  outdir : String
  /-- the `--frequency` option (default 1.0 Hz) -/
  frequency : ℚ
  /-- The MPI rank `comm.rank` -/
  rank : Nat
  /-- number of entries of `perun.backends` -/
  numBackends : Nat
  /-- The list `lDeviceIds` returned by `getDeviceConfiguration` for this process -/
  deviceIds : List String
  /-- Whether `outPath.exists()` on this node -/
  outExists : Bool
  /-- whether opening and executing the script completes without raising -/
  workloadOk : Bool
  /-- the buffer the worker puts on the queue -/
  workerData : LocalData

/-- A `multiprocessing.Event` state: `false` is unset. -/
def eventInit : Bool := false

/-- Models `Event.set()`: sets the flag regardless of its current state. -/
def eventSet (_ : Bool) : Bool := true

/-- The click default of `--frequency`. -/
def defaultFrequency : ℚ := 1

/-- Events from the argv rewrite up to running the workload: resolve
devices, close every backend, spawn the worker and wait for readiness
when the device list is non-empty, then the first barrier and the
workload. -/
def headerEvents (cfg : Config) (i : Nat) : List Event :=
  [Event.setArgv (cfg.argv.drop i), Event.resolveDevices]
    ++ (List.range cfg.numBackends).map Event.closeBackend
    ++ (if cfg.deviceIds = [] then []
        else [Event.spawnWorker cfg.deviceIds cfg.frequency, Event.waitStart])
    ++ [Event.barrier, Event.runWorkload]

/-- Result collection: join the worker and read the queue when one was
spawned, nothing otherwise. -/
def collectEvents (cfg : Config) : List Event :=
  if cfg.deviceIds = [] then []
  else [Event.joinWorker, Event.getQueue cfg.workerData]

/-- The value `lStrg`: the collected local storage, `none` when no worker ran. -/
def lStrgOf (cfg : Config) : Option LocalData :=
  if cfg.deviceIds = [] then none else some cfg.workerData

/-- Output-directory creation: only rank 0 and only when the path does
not exist. -/
def mkdirEvents (cfg : Config) : List Event :=
  if cfg.rank = 0 ∧ cfg.outExists = false then
    [Event.mkOutdir (posixStr cfg.outdir)]
  else []

/-- Persistence: a run with the buffer's dict plus the device data, or a
run with `None`. -/
def persistEvents (cfg : Config) : List Event :=
  match lStrgOf cfg with
  | some d => [Event.addRun (some d), Event.saveDeviceData d]
  | none => [Event.addRun none]

/-- Report printing: rank 0 only. -/
def reportEvents (cfg : Config) : List Event :=
  if cfg.rank = 0 then [Event.report] else []

/-- Events after a successful workload: collect results, barrier, create
the output directory, open storage, persist, barrier, postprocess,
barrier, report, barrier, close. -/
def tailEvents (cfg : Config) : List Event :=
  collectEvents cfg ++ [Event.barrier] ++ mkdirEvents cfg
    ++ [Event.openStorage (resultPathOf cfg.script cfg.outdir)]
    ++ persistEvents cfg
    ++ [Event.barrier, Event.postprocess, Event.barrier]
    ++ reportEvents cfg ++ [Event.barrier, Event.closeStorage]

/-- The whole trace once `sys.argv.index` succeeded at index `i`: the
workload-failure path sets stop and returns; the success path continues
with `tailEvents`. -/
def runEvents (cfg : Config) (i : Nat) : List Event :=
  headerEvents cfg i
    ++ Event.setStop :: (if cfg.workloadOk = true then tailEvents cfg else [])

/-- The `monitor` command: `ValueError` with no observable action when
the script path is not in `sys.argv`, otherwise a normal return with the
trace of `runEvents`. -/
def monitorRun (cfg : Config) : Outcome × List Event :=
  match pyIndex (posixStr cfg.script) cfg.argv with
  | none => (Outcome.valueError, [])
  | some i => (Outcome.ok, runEvents cfg i)

/-- A configuration with a worker: rank 0, one device, two backends, a
2 Hz frequency, a fresh output directory, a succeeding workload. -/
def cfgA : Config where
  argv := ["x.py", "a1"]
  script := "x.py"
  outdir := "./"
  frequency := 2
  rank := 0
  numBackends := 2
  deviceIds := ["d0"]
  outExists := false
  workloadOk := true
  workerData := ⟨7⟩

/-- Like `cfgA` but the workload raises. -/
def cfgF : Config := { cfgA with workloadOk := false }

/-- Like `cfgA` but with a zero sampling frequency. -/
def cfgZ : Config := { cfgA with frequency := 0 }

/-- Like `cfgA` but monitoring a script named `a.py.b.py`. -/
def cfgB : Config := { cfgA with script := "a.py.b.py", argv := ["a.py.b.py"] }

/-- The example script name of the suffix-removal behaviour. -/
def exScript : String := "a.py.b.py"

/-- The default output directory argument. -/
def exOutdir : String := "./"

/-! ## Helper lemmas -/

theorem pyIndex_eq_none_iff (x : String) (l : List String) :
    pyIndex x l = none ↔ x ∉ l := by
  induction l with
  | nil => simp [pyIndex]
  | cons a rest ih =>
    by_cases h : a = x
    · simp [pyIndex, h]
    · rw [pyIndex, if_neg h, Option.map_eq_none', ih]
      simp only [List.mem_cons, not_or]
      constructor
      · intro hr
        exact ⟨fun hx => h hx.symm, hr⟩
      · exact And.right

theorem pyIndex_some_decomp (x : String) (l : List String) (i : Nat)
    (h : pyIndex x l = some i) :
    ∃ pre post, l = pre ++ x :: post ∧ x ∉ pre ∧ l.drop i = x :: post := by
  induction l generalizing i with
  | nil => simp [pyIndex] at h
  | cons a rest ih =>
    simp only [pyIndex] at h
    split_ifs at h with hax
    · obtain rfl := Option.some.inj h
      subst hax
      exact ⟨[], rest, by simp, by simp, by simp⟩
    · rw [Option.map_eq_some'] at h
      obtain ⟨j, hj, hij⟩ := h
      obtain ⟨pre, post, hl, hpre, hdrop⟩ := ih j hj
      subst hij
      refine ⟨a :: pre, post, by simp [hl], ?_, ?_⟩
      · simp only [List.mem_cons, not_or]
        exact ⟨fun hx => hax hx.symm, hpre⟩
      · simpa using hdrop

theorem count_closeBackends (n : Nat) (e : Event)
    (h : ∀ j, e ≠ Event.closeBackend j) :
    ((List.range n).map Event.closeBackend).count e = 0 := by
  refine List.count_eq_zero.mpr ?_
  intro hmem
  obtain ⟨j, hj, hje⟩ := List.mem_map.mp hmem
  exact h j hje.symm

theorem countP_addRun_closeBackends (n : Nat) :
    ((List.range n).map Event.closeBackend).countP (fun e => isAddRun e) = 0 := by
  refine List.countP_eq_zero.mpr ?_
  simp [isAddRun]

theorem monitorRun_eq_of_some (cfg : Config) (i : Nat)
    (h : pyIndex (posixStr cfg.script) cfg.argv = some i) :
    monitorRun cfg = (Outcome.ok, runEvents cfg i) := by
  unfold monitorRun
  rw [h]

theorem monitorRun_eq_of_none (cfg : Config)
    (h : pyIndex (posixStr cfg.script) cfg.argv = none) :
    monitorRun cfg = (Outcome.valueError, []) := by
  unfold monitorRun
  rw [h]

theorem count_setStop_header (cfg : Config) (i : Nat) :
    (headerEvents cfg i).count Event.setStop = 0 := by
  refine List.count_eq_zero.mpr ?_
  unfold headerEvents
  by_cases hd : cfg.deviceIds = [] <;> simp [hd]

theorem count_setStop_tail (cfg : Config) :
    (tailEvents cfg).count Event.setStop = 0 := by
  refine List.count_eq_zero.mpr ?_
  unfold tailEvents collectEvents mkdirEvents persistEvents reportEvents lStrgOf
  by_cases hd : cfg.deviceIds = [] <;> by_cases hr : cfg.rank = 0 <;>
    cases ho : cfg.outExists <;> simp [hd, hr, ho]

theorem count_barrier_header (cfg : Config) (i : Nat) :
    (headerEvents cfg i).count Event.barrier = 1 := by
  have hc : ((List.range cfg.numBackends).map Event.closeBackend).count
      Event.barrier = 0 :=
    count_closeBackends _ _ (fun j => by simp)
  unfold headerEvents
  by_cases hd : cfg.deviceIds = [] <;>
    simp [hd, List.count_append, List.count_cons, hc]

theorem count_barrier_tail (cfg : Config) :
    (tailEvents cfg).count Event.barrier = 4 := by
  unfold tailEvents collectEvents mkdirEvents persistEvents reportEvents
    lStrgOf
  by_cases hd : cfg.deviceIds = [] <;> by_cases hr : cfg.rank = 0 <;>
    cases ho : cfg.outExists <;>
    simp [hd, hr, ho, List.count_append, List.count_cons]

/-! ## Claims -/

/-- Claim C4: in every execution of the monitor command that reaches the
workload, the stop signal is set exactly once — on the workload-failure
path or after the workload completes — before any result collection
(no worker join, queue read or run registration precedes it), and setting
a `multiprocessing.Event` twice is identical to setting it once. -/
theorem stop_set_exactly_once (cfg : Config) (i : Nat)
    (h : pyIndex (posixStr cfg.script) cfg.argv = some i) :
    (monitorRun cfg).2.count Event.setStop = 1
      ∧ (∃ l₁ l₂, (monitorRun cfg).2 = l₁ ++ Event.setStop :: l₂
          ∧ Event.joinWorker ∉ l₁ ∧ (∀ d, Event.getQueue d ∉ l₁)
          ∧ l₁.countP (fun e => isAddRun e) = 0)
      ∧ (∀ b : Bool, eventSet (eventSet b) = eventSet b) := by
  rw [monitorRun_eq_of_some cfg i h]
  refine ⟨?_, ?_, fun b => rfl⟩
  · show (runEvents cfg i).count Event.setStop = 1
    unfold runEvents
    rw [List.count_append, count_setStop_header]
    by_cases hw : cfg.workloadOk = true <;>
      simp [hw, List.count_cons, count_setStop_tail]
  · refine ⟨headerEvents cfg i,
      (if cfg.workloadOk = true then tailEvents cfg else []), rfl, ?_, ?_, ?_⟩
    · unfold headerEvents
      by_cases hd : cfg.deviceIds = [] <;> simp [hd]
    · intro d
      unfold headerEvents
      by_cases hd : cfg.deviceIds = [] <;> simp [hd]
    · unfold headerEvents
      by_cases hd : cfg.deviceIds = [] <;>
        simp [hd, List.countP_append, List.countP_cons,
          countP_addRun_closeBackends, isAddRun]

theorem stop_set_exactly_once_witness :
    (monitorRun cfgA).2.count Event.setStop = 1 :=
  (stop_set_exactly_once cfgA 0 rfl).1

/-- Claim C5: a process whose resolved device list is empty spawns no
worker and reaches the first barrier without ever blocking on the start
signal; a process with a non-empty device list spawns a worker and waits
on the start signal before the first barrier. -/
theorem empty_devices_no_worker (cfg : Config) (i : Nat)
    (h : pyIndex (posixStr cfg.script) cfg.argv = some i) :
    (cfg.deviceIds = [] →
        (∀ d f, Event.spawnWorker d f ∉ (monitorRun cfg).2)
          ∧ Event.waitStart ∉ (monitorRun cfg).2
          ∧ Event.barrier ∈ (monitorRun cfg).2)
      ∧ (cfg.deviceIds ≠ [] →
        ∃ l₁ l₂, (monitorRun cfg).2 = l₁ ++ Event.barrier :: l₂
          ∧ Event.barrier ∉ l₁
          ∧ Event.spawnWorker cfg.deviceIds cfg.frequency ∈ l₁
          ∧ Event.waitStart ∈ l₁) := by
  rw [monitorRun_eq_of_some cfg i h]
  constructor
  · intro hd
    refine ⟨?_, ?_, ?_⟩
    · intro d f
      unfold runEvents headerEvents tailEvents collectEvents mkdirEvents
        persistEvents reportEvents lStrgOf
      by_cases hw : cfg.workloadOk = true <;> by_cases hr : cfg.rank = 0 <;>
        cases ho : cfg.outExists <;> simp [hd, hw, hr, ho]
    · unfold runEvents headerEvents tailEvents collectEvents mkdirEvents
        persistEvents reportEvents lStrgOf
      by_cases hw : cfg.workloadOk = true <;> by_cases hr : cfg.rank = 0 <;>
        cases ho : cfg.outExists <;> simp [hd, hw, hr, ho]
    · unfold runEvents headerEvents
      simp [hd]
  · intro hd
    refine ⟨[Event.setArgv (cfg.argv.drop i), Event.resolveDevices]
        ++ (List.range cfg.numBackends).map Event.closeBackend
        ++ [Event.spawnWorker cfg.deviceIds cfg.frequency, Event.waitStart],
      Event.runWorkload :: Event.setStop ::
        (if cfg.workloadOk = true then tailEvents cfg else []),
      ?_, ?_, ?_, ?_⟩
    · unfold runEvents headerEvents
      simp [hd]
    · simp
    · simp
    · simp

theorem empty_devices_no_worker_witness :
    ∃ l₁ l₂, (monitorRun cfgA).2 = l₁ ++ Event.barrier :: l₂
      ∧ Event.barrier ∉ l₁
      ∧ Event.spawnWorker cfgA.deviceIds cfgA.frequency ∈ l₁
      ∧ Event.waitStart ∈ l₁ :=
  (empty_devices_no_worker cfgA 0 rfl).2 (by decide)

/-- Claim C6: on the success path, a process that spawned a worker joins it
and retrieves the finalized buffer from the hand-off queue, registering a
run that carries the buffer's data; a process without a worker joins
nothing, reads no queue and registers a run with the null marker; in both
cases exactly one run is registered. -/
theorem result_collection (cfg : Config) (i : Nat)
    (h : pyIndex (posixStr cfg.script) cfg.argv = some i)
    (hw : cfg.workloadOk = true) :
    (cfg.deviceIds ≠ [] →
        Event.joinWorker ∈ (monitorRun cfg).2
          ∧ Event.getQueue cfg.workerData ∈ (monitorRun cfg).2
          ∧ Event.addRun (some cfg.workerData) ∈ (monitorRun cfg).2)
      ∧ (cfg.deviceIds = [] →
        Event.joinWorker ∉ (monitorRun cfg).2
          ∧ (∀ d, Event.getQueue d ∉ (monitorRun cfg).2)
          ∧ Event.addRun none ∈ (monitorRun cfg).2)
      ∧ (monitorRun cfg).2.countP (fun e => isAddRun e) = 1 := by
  rw [monitorRun_eq_of_some cfg i h]
  refine ⟨fun hd => ?_, fun hd => ?_, ?_⟩
  · unfold runEvents tailEvents collectEvents mkdirEvents persistEvents
      reportEvents lStrgOf headerEvents
    by_cases hr : cfg.rank = 0 <;> cases ho : cfg.outExists <;>
      simp [hd, hw, hr, ho]
  · unfold runEvents tailEvents collectEvents mkdirEvents persistEvents
      reportEvents lStrgOf headerEvents
    by_cases hr : cfg.rank = 0 <;> cases ho : cfg.outExists <;>
      simp [hd, hw, hr, ho]
  · unfold runEvents tailEvents collectEvents mkdirEvents persistEvents
      reportEvents lStrgOf headerEvents
    by_cases hd : cfg.deviceIds = [] <;> by_cases hr : cfg.rank = 0 <;>
      cases ho : cfg.outExists <;>
      simp [hd, hw, hr, ho, List.countP_append, List.countP_cons,
        countP_addRun_closeBackends, isAddRun]

theorem result_collection_witness :
    Event.joinWorker ∈ (monitorRun cfgA).2
      ∧ Event.getQueue cfgA.workerData ∈ (monitorRun cfgA).2
      ∧ Event.addRun (some cfgA.workerData) ∈ (monitorRun cfgA).2 :=
  (result_collection cfgA 0 rfl rfl).1 (by decide)

/-- Claim C7: only rank 0 creates the output directory, and only when it
does not exist; only rank 0 prints the report; on the success path rank 0
actually performs both. -/
theorem rank0_singleton_actions (cfg : Config) (i : Nat)
    (h : pyIndex (posixStr cfg.script) cfg.argv = some i) :
    (∀ p, Event.mkOutdir p ∈ (monitorRun cfg).2 →
        cfg.rank = 0 ∧ cfg.outExists = false)
      ∧ (Event.report ∈ (monitorRun cfg).2 → cfg.rank = 0)
      ∧ (cfg.workloadOk = true → cfg.rank = 0 → cfg.outExists = false →
          Event.mkOutdir (posixStr cfg.outdir) ∈ (monitorRun cfg).2)
      ∧ (cfg.workloadOk = true → cfg.rank = 0 →
          Event.report ∈ (monitorRun cfg).2) := by
  refine ⟨?_, ?_, ?_, ?_⟩
  · intro p hp
    rw [monitorRun_eq_of_some cfg i h] at hp
    unfold runEvents tailEvents collectEvents mkdirEvents persistEvents
      reportEvents lStrgOf headerEvents at hp
    by_cases hd : cfg.deviceIds = [] <;> by_cases hw : cfg.workloadOk = true <;>
      by_cases hr : cfg.rank = 0 <;> cases ho : cfg.outExists <;>
      simp [hd, hw, hr, ho] at hp <;> exact ⟨hr, rfl⟩
  · intro hp
    rw [monitorRun_eq_of_some cfg i h] at hp
    unfold runEvents tailEvents collectEvents mkdirEvents persistEvents
      reportEvents lStrgOf headerEvents at hp
    by_cases hd : cfg.deviceIds = [] <;> by_cases hw : cfg.workloadOk = true <;>
      by_cases hr : cfg.rank = 0 <;> cases ho : cfg.outExists <;>
      simp [hd, hw, hr, ho] at hp <;> exact hr
  · intro hw hr ho
    rw [monitorRun_eq_of_some cfg i h]
    unfold runEvents tailEvents collectEvents mkdirEvents persistEvents
      reportEvents lStrgOf headerEvents
    by_cases hd : cfg.deviceIds = [] <;> simp [hd, hw, hr, ho]
  · intro hw hr
    rw [monitorRun_eq_of_some cfg i h]
    unfold runEvents tailEvents collectEvents mkdirEvents persistEvents
      reportEvents lStrgOf headerEvents
    by_cases hd : cfg.deviceIds = [] <;> cases ho : cfg.outExists <;>
      simp [hd, hw, hr, ho]

theorem rank0_singleton_actions_witness :
    Event.mkOutdir (posixStr cfgA.outdir) ∈ (monitorRun cfgA).2 :=
  (rank0_singleton_actions cfgA 0 rfl).2.2.1 rfl rfl rfl

/-- Claim C8: right after device resolution and before any worker spawn,
every backend handle in the registry is closed, and no later event of the
run touches a backend again (no close and no resolution occurs in the
remainder, and any worker spawn lies entirely in the remainder). -/
theorem backends_closed_before_spawn (cfg : Config) (i : Nat)
    (h : pyIndex (posixStr cfg.script) cfg.argv = some i) :
    ∃ rest, (monitorRun cfg).2
        = [Event.setArgv (cfg.argv.drop i), Event.resolveDevices]
            ++ (List.range cfg.numBackends).map Event.closeBackend ++ rest
      ∧ (∀ j, j < cfg.numBackends ↔ Event.closeBackend j ∈ (monitorRun cfg).2)
      ∧ (∀ j, Event.closeBackend j ∉ rest)
      ∧ Event.resolveDevices ∉ rest
      ∧ (∀ d f, Event.spawnWorker d f ∈ (monitorRun cfg).2 →
          Event.spawnWorker d f ∈ rest) := by
  rw [monitorRun_eq_of_some cfg i h]
  refine ⟨(if cfg.deviceIds = [] then []
        else [Event.spawnWorker cfg.deviceIds cfg.frequency, Event.waitStart])
      ++ [Event.barrier, Event.runWorkload]
      ++ Event.setStop :: (if cfg.workloadOk = true then tailEvents cfg else []),
      ?_, ?_, ?_, ?_, ?_⟩
  · unfold runEvents headerEvents
    simp [List.append_assoc]
  · intro j
    unfold runEvents tailEvents collectEvents mkdirEvents persistEvents
      reportEvents lStrgOf headerEvents
    by_cases hd : cfg.deviceIds = [] <;> by_cases hw : cfg.workloadOk = true <;>
      by_cases hr : cfg.rank = 0 <;> cases ho : cfg.outExists <;>
      simp [hd, hw, hr, ho, List.mem_map, eq_comm]
  · intro j
    unfold tailEvents collectEvents mkdirEvents persistEvents
      reportEvents lStrgOf
    by_cases hd : cfg.deviceIds = [] <;> by_cases hw : cfg.workloadOk = true <;>
      by_cases hr : cfg.rank = 0 <;> cases ho : cfg.outExists <;>
      simp [hd, hw, hr, ho]
  · unfold tailEvents collectEvents mkdirEvents persistEvents
      reportEvents lStrgOf
    by_cases hd : cfg.deviceIds = [] <;> by_cases hw : cfg.workloadOk = true <;>
      by_cases hr : cfg.rank = 0 <;> cases ho : cfg.outExists <;>
      simp [hd, hw, hr, ho]
  · intro d f hmem
    unfold runEvents headerEvents tailEvents collectEvents mkdirEvents
      persistEvents reportEvents lStrgOf at hmem
    unfold tailEvents collectEvents mkdirEvents persistEvents reportEvents
      lStrgOf
    by_cases hd : cfg.deviceIds = [] <;> by_cases hw : cfg.workloadOk = true <;>
      by_cases hr : cfg.rank = 0 <;> cases ho : cfg.outExists <;>
      simp [hd, hw, hr, ho] at hmem ⊢ <;> exact hmem

theorem backends_closed_before_spawn_witness :
    ∃ rest, (monitorRun cfgA).2
        = [Event.setArgv (cfgA.argv.drop 0), Event.resolveDevices]
            ++ (List.range cfgA.numBackends).map Event.closeBackend ++ rest
      ∧ (∀ j, j < cfgA.numBackends ↔ Event.closeBackend j ∈ (monitorRun cfgA).2)
      ∧ (∀ j, Event.closeBackend j ∉ rest)
      ∧ Event.resolveDevices ∉ rest
      ∧ (∀ d f, Event.spawnWorker d f ∈ (monitorRun cfgA).2 →
          Event.spawnWorker d f ∈ rest) :=
  backends_closed_before_spawn cfgA 0 rfl

/-- Claim C1 counterexample: with a spawned worker and a failing workload,
the command never joins the worker and finishes with the normal (zero)
outcome, contradicting the claimed join and non-zero outcome. -/
theorem workload_failure_claim_cex :
    Event.spawnWorker cfgF.deviceIds cfgF.frequency ∈ (monitorRun cfgF).2
      ∧ Event.joinWorker ∉ (monitorRun cfgF).2
      ∧ (monitorRun cfgF).1 = Outcome.ok := by decide

/-- Claim C1 (amended): on workload failure the orchestrator signals stop
exactly once and returns early — zero runs persisted, the worker is not
joined — and the command finishes with the normal (zero) outcome. -/
theorem workload_failure_aborts (cfg : Config) (i : Nat)
    (h : pyIndex (posixStr cfg.script) cfg.argv = some i)
    (hw : cfg.workloadOk = false) :
    (monitorRun cfg).2.count Event.setStop = 1
      ∧ (monitorRun cfg).2.countP (fun e => isAddRun e) = 0
      ∧ Event.joinWorker ∉ (monitorRun cfg).2
      ∧ (monitorRun cfg).1 = Outcome.ok := by
  rw [monitorRun_eq_of_some cfg i h]
  have hw' : ¬ cfg.workloadOk = true := by simp [hw]
  refine ⟨?_, ?_, ?_, rfl⟩
  · unfold runEvents
    rw [List.count_append, count_setStop_header]
    simp [hw']
  · unfold runEvents headerEvents
    by_cases hd : cfg.deviceIds = [] <;>
      simp [hd, hw', List.countP_append, List.countP_cons,
        countP_addRun_closeBackends, isAddRun]
  · unfold runEvents headerEvents
    by_cases hd : cfg.deviceIds = [] <;> simp [hd, hw']

theorem workload_failure_aborts_witness :
    (monitorRun cfgF).2.countP (fun e => isAddRun e) = 0 :=
  (workload_failure_aborts cfgF 0 rfl rfl).2.1

/-- Claim C2 counterexample: in a successful run the barrier is invoked
five times, not three. -/
theorem barrier_three_points_cex :
    (monitorRun cfgA).2.count Event.barrier = 5
      ∧ (monitorRun cfgA).2.count Event.barrier ≠ 3 := by decide

/-- Claim C2 (amended): in every successful run the barrier is invoked at
exactly five fixed points: after the worker is ready and before the
workload; after stop is signaled and before the shared output path is
created; after persistence and before postprocessing; after
postprocessing and before reporting; after reporting and before the
storage handle is released.  On the workload-failure path only the first
barrier (the pre-workload one) runs. -/
theorem barrier_five_points (cfg : Config) (i : Nat)
    (h : pyIndex (posixStr cfg.script) cfg.argv = some i) :
    (cfg.workloadOk = true →
      (monitorRun cfg).2.count Event.barrier = 5
        ∧ ∃ s0 s1 s2 s3 s4 s5,
          (monitorRun cfg).2
              = s0 ++ Event.barrier :: (s1 ++ Event.barrier :: (s2
                  ++ Event.barrier :: (s3 ++ Event.barrier :: (s4
                  ++ Event.barrier :: s5))))
            ∧ Event.runWorkload ∈ s1 ∧ Event.setStop ∈ s1
            ∧ (∃ p, Event.openStorage p ∈ s2)
            ∧ s2.countP (fun e => isAddRun e) = 1
            ∧ Event.postprocess ∈ s3
            ∧ (Event.report ∈ s4 ↔ cfg.rank = 0)
            ∧ Event.closeStorage ∈ s5)
      ∧ (cfg.workloadOk = false →
        (monitorRun cfg).2.count Event.barrier = 1
          ∧ ∃ l₁ l₂, (monitorRun cfg).2 = l₁ ++ Event.barrier :: l₂
              ∧ Event.barrier ∉ l₁ ∧ Event.barrier ∉ l₂
              ∧ Event.runWorkload ∈ l₂) := by
  rw [monitorRun_eq_of_some cfg i h]
  constructor
  · intro hw
    constructor
    · unfold runEvents
      rw [List.count_append, count_barrier_header]
      simp [hw, List.count_cons, count_barrier_tail]
    · refine ⟨[Event.setArgv (cfg.argv.drop i), Event.resolveDevices]
          ++ (List.range cfg.numBackends).map Event.closeBackend
          ++ (if cfg.deviceIds = [] then []
              else [Event.spawnWorker cfg.deviceIds cfg.frequency,
                Event.waitStart]),
        [Event.runWorkload, Event.setStop] ++ collectEvents cfg,
        mkdirEvents cfg
          ++ [Event.openStorage (resultPathOf cfg.script cfg.outdir)]
          ++ persistEvents cfg,
        [Event.postprocess], reportEvents cfg, [Event.closeStorage],
        ?_, by simp, by simp, ⟨resultPathOf cfg.script cfg.outdir, by simp⟩,
        ?_, by simp, ?_, by simp⟩
      · unfold runEvents headerEvents tailEvents
        simp [hw, List.append_assoc]
      · unfold mkdirEvents persistEvents lStrgOf
        by_cases hd : cfg.deviceIds = [] <;> by_cases hr : cfg.rank = 0 <;>
          cases ho : cfg.outExists <;>
          simp [hd, hr, ho, List.countP_append, List.countP_cons, isAddRun]
      · unfold reportEvents
        by_cases hr : cfg.rank = 0 <;> simp [hr]
  · intro hw
    have hw' : ¬ cfg.workloadOk = true := by simp [hw]
    constructor
    · unfold runEvents
      rw [List.count_append, count_barrier_header]
      simp [hw', List.count_cons]
    · refine ⟨[Event.setArgv (cfg.argv.drop i), Event.resolveDevices]
          ++ (List.range cfg.numBackends).map Event.closeBackend
          ++ (if cfg.deviceIds = [] then []
              else [Event.spawnWorker cfg.deviceIds cfg.frequency,
                Event.waitStart]),
        [Event.runWorkload, Event.setStop], ?_, ?_, by simp, by simp⟩
      · unfold runEvents headerEvents
        simp [hw', List.append_assoc]
      · by_cases hd : cfg.deviceIds = [] <;> simp [hd]

theorem barrier_five_points_witness :
    (monitorRun cfgA).2.count Event.barrier = 5
      ∧ (monitorRun cfgF).2.count Event.barrier = 1 :=
  ⟨((barrier_five_points cfgA 0 rfl).1 rfl).1,
    ((barrier_five_points cfgF 0 rfl).2 rfl).1⟩

/-- Claim C3 counterexample: a run configured with frequency 0 still spawns
a worker, handing it the non-positive frequency 0. -/
theorem positive_frequency_cex :
    Event.spawnWorker cfgZ.deviceIds 0 ∈ (monitorRun cfgZ).2
      ∧ ¬ (0 : ℚ) < 0 := by decide

/-- Claim C3 (amended): the monitor command hands the worker exactly the
user-supplied frequency, with no positivity check — a spawned worker
always carries the configured frequency, whatever its sign — and only the
click default (1.0 Hz) is guaranteed positive. -/
theorem frequency_passed_through (cfg : Config) (i : Nat)
    (h : pyIndex (posixStr cfg.script) cfg.argv = some i) :
    (∀ d f, Event.spawnWorker d f ∈ (monitorRun cfg).2 →
        d = cfg.deviceIds ∧ f = cfg.frequency)
      ∧ (cfg.deviceIds ≠ [] →
          Event.spawnWorker cfg.deviceIds cfg.frequency ∈ (monitorRun cfg).2)
      ∧ (0 : ℚ) < defaultFrequency := by
  refine ⟨?_, ?_, by norm_num [defaultFrequency]⟩
  · intro d f hmem
    rw [monitorRun_eq_of_some cfg i h] at hmem
    unfold runEvents headerEvents tailEvents collectEvents mkdirEvents
      persistEvents reportEvents lStrgOf at hmem
    by_cases hd : cfg.deviceIds = [] <;> by_cases hw : cfg.workloadOk = true <;>
      by_cases hr : cfg.rank = 0 <;> cases ho : cfg.outExists <;>
      simp [hd, hw, hr, ho] at hmem <;> exact ⟨hmem.1, hmem.2⟩
  · intro hd
    rw [monitorRun_eq_of_some cfg i h]
    unfold runEvents headerEvents
    simp [hd]

theorem frequency_passed_through_witness :
    Event.spawnWorker cfgA.deviceIds cfgA.frequency ∈ (monitorRun cfgA).2 :=
  (frequency_passed_through cfgA 0 rfl).2.1 (by decide)

/-- Claim C9: the experiment record is opened at outdir/<name>.hdf5 where
<name> is the script file name with every occurrence of its suffix string
removed; the script `a.py.b.py` is persisted to `a.b.hdf5`, not to
`a.py.b.hdf5`. -/
theorem result_path_removes_every_suffix (cfg : Config) (i : Nat)
    (h : pyIndex (posixStr cfg.script) cfg.argv = some i)
    (hw : cfg.workloadOk = true) :
    Event.openStorage (pathJoin (posixStr cfg.outdir)
        (pyReplaceRemove (pyName cfg.script) (pySuffix (pyName cfg.script))
          ++ ".hdf5"))
      ∈ (monitorRun cfg).2
      ∧ resultPathOf exScript exOutdir = "a.b.hdf5"
      ∧ resultPathOf exScript exOutdir ≠ "a.py.b.hdf5" := by
  refine ⟨?_, by decide, by decide⟩
  rw [monitorRun_eq_of_some cfg i h]
  unfold runEvents headerEvents tailEvents collectEvents mkdirEvents
    persistEvents reportEvents lStrgOf resultPathOf scriptNameOf
  by_cases hd : cfg.deviceIds = [] <;> by_cases hr : cfg.rank = 0 <;>
    cases ho : cfg.outExists <;> simp [hd, hw, hr, ho]

theorem result_path_removes_every_suffix_witness :
    Event.openStorage (pathJoin (posixStr cfgB.outdir)
        (pyReplaceRemove (pyName cfgB.script) (pySuffix (pyName cfgB.script))
          ++ ".hdf5"))
      ∈ (monitorRun cfgB).2 :=
  (result_path_removes_every_suffix cfgB 0 rfl rfl).1

/-- Claim C10: the command truncates `sys.argv` at the first element equal
to the normalized script path, so the workload sees that path as argv[0]
followed by its own arguments; when no element matches, a `ValueError`
aborts the run before any device resolution or worker spawn. -/
theorem argv_rewrite (cfg : Config) :
    (∀ i, pyIndex (posixStr cfg.script) cfg.argv = some i →
        ∃ pre post, cfg.argv = pre ++ posixStr cfg.script :: post
          ∧ posixStr cfg.script ∉ pre
          ∧ Event.setArgv (posixStr cfg.script :: post) ∈ (monitorRun cfg).2)
      ∧ (pyIndex (posixStr cfg.script) cfg.argv = none →
        posixStr cfg.script ∉ cfg.argv
          ∧ (monitorRun cfg).1 = Outcome.valueError
          ∧ Event.resolveDevices ∉ (monitorRun cfg).2
          ∧ (∀ d f, Event.spawnWorker d f ∉ (monitorRun cfg).2)) := by
  constructor
  · intro i h
    obtain ⟨pre, post, hl, hpre, hdrop⟩ := pyIndex_some_decomp _ _ _ h
    refine ⟨pre, post, hl, hpre, ?_⟩
    rw [monitorRun_eq_of_some cfg i h, ← hdrop]
    unfold runEvents headerEvents
    simp
  · intro h
    rw [monitorRun_eq_of_none cfg h]
    exact ⟨(pyIndex_eq_none_iff _ _).mp h, rfl, by simp, by simp⟩

theorem argv_rewrite_witness :
    ∃ pre post, cfgA.argv = pre ++ posixStr cfgA.script :: post
      ∧ posixStr cfgA.script ∉ pre
      ∧ Event.setArgv (posixStr cfgA.script :: post) ∈ (monitorRun cfgA).2 :=
  (argv_rewrite cfgA).1 0 rfl

end Perun
